import Mathlib

/-!
Shallow embedding of the drycc builder's build orchestration engine
(the `build` function and its helpers in `src/unnamed/part_001`, and
`CheckAPICompat` in `src/pkg/controller/utils.go`), together with theorems
settling the specification claims about it.

External collaborators (the Kubernetes API, the object storage driver, the
controller SDK, the git binary, the filesystem) are represented by an oracle
record `World` holding the outcome each external call returns during the one
build under consideration; the orchestration logic itself is a direct
translation of the source of `build`.  Externally visible actions (storage
writes and deletes, secret creation and deletion, pod creation, the release
publication) are recorded in an event trace.
-/

/-- Go error values carried by failed external calls, modelled as their message. -/
abbrev GoErr := String

/-- Errors returned by the controller SDK; `apiMismatch` models the
`drycc.ErrAPIMismatch` sentinel value, every other error is `other`. -/
inductive CtrlErr where
  | apiMismatch
  | other (msg : String)
deriving DecidableEq

/-- Errors returned by the object storage driver; the source only ever tests
them for being non-nil, but the spec claims distinguish NotFound. -/
inductive StorageErr where
  | notFound
  | other (msg : String)
deriving DecidableEq

/-- Kubernetes image pull policies. -/
inductive PullPolicy where
  | always
  | ifNotPresent
  | never
deriving DecidableEq

/-- Modelled from the spec: `k8s.PullPolicyFromString` (not under `src/`)
coerces a string into the fixed set Always, IfNotPresent, Never; any other
string is a configuration error. -/
def pullPolicyFromString (s : String) : Except String PullPolicy :=
  if s = "Always" then .ok .always
  else if s = "IfNotPresent" then .ok .ifNotPresent
  else if s = "Never" then .ok .never
  else .error s

/-- A parsed git commit identifier with its derived short form. -/
structure GitSha where
  full : String
  short : String
deriving DecidableEq

/-- Modelled from the spec: `git.NewSha` (not under `src/`) accepts a full
40-character lowercase hex commit identifier and derives the short form as its
first 8 characters; anything else is rejected. -/
def NewSha (raw : String) : Option GitSha :=
  if raw.length = 40 ∧ raw.data.all (fun c => c.isDigit || decide ('a' ≤ c ∧ c ≤ 'f')) = true then
    some ⟨raw, raw.take 8⟩
  else
    none

/-- The stack selected for the build; the source represents it as the string
map returned by `getStack` with keys name and image. -/
structure Stack where
  name : String
  image : String
deriving DecidableEq

/-- App configuration fetched from the controller; `values` models
`appConf.Values` as an association list. -/
structure AppConfig where
  values : List (String × String)
deriving DecidableEq

/-- Object-storage key bundle derived from the app name and short sha. -/
structure SlugBuilderInfo where
  tarKey : String
  pushKey : String
  cacheKey : String
  disableCaching : Bool
deriving DecidableEq

/-- Modelled from the spec: `NewSlugBuilderInfo` (not under `src/`) derives
tarKey as home/{app}:git-{shortSha}/tar, pushKey as
home/{app}:git-{shortSha}/push and cacheKey as home/{app}/cache, and records
the disable-caching flag. -/
def NewSlugBuilderInfo (appName shortSha : String) (disableCaching : Bool) : SlugBuilderInfo :=
  { tarKey := "home/" ++ appName ++ ":git-" ++ shortSha ++ "/tar"
    pushKey := "home/" ++ appName ++ ":git-" ++ shortSha ++ "/push"
    cacheKey := "home/" ++ appName ++ "/cache"
    disableCaching := disableCaching }

/-- Modelled from the spec: the slug object key is pushKey followed by /slug.tgz. -/
def SlugBuilderInfo.absoluteSlugObjectKey (s : SlugBuilderInfo) : String :=
  s.pushKey ++ "/slug.tgz"

/-- Modelled from the spec: the Procfile object key is pushKey followed by /Procfile. -/
def SlugBuilderInfo.absoluteProcfileKey (s : SlugBuilderInfo) : String :=
  s.pushKey ++ "/Procfile"

/-- Terminated container state, mirroring `corev1.ContainerStateTerminated`;
only the exit code is inspected by the orchestrator. -/
structure ContainerStateTerminated where
  exitCode : Int
deriving DecidableEq

/-- Container state, mirroring `corev1.ContainerState`; `terminated` is a
nilable pointer in the source, modelled as an `Option`. -/
structure ContainerState where
  terminated : Option ContainerStateTerminated
deriving DecidableEq

/-- Container status, mirroring `corev1.ContainerStatus`. -/
structure ContainerStatus where
  state : ContainerState
deriving DecidableEq

/-- Process-type mapping parsed from a Procfile (`dryccAPI.ProcessType`),
modelled as an association list from process name to command. -/
abbrev ProcessType := List (String × String)

/-- Oracle for the filesystem stat/read, object-storage read and YAML
decoding performed by `getProcFile`.  `yaml` gives the result of
`yaml.Unmarshal` on whichever bytes were read. -/
structure ProcOracle where
  localExists : Bool
  localBytes : Except GoErr String
  yaml : String → Except GoErr ProcessType
  getContent : String → Except GoErr String

/-- The failure classification of the build, one constructor per
error-return site of the `build` function (and of `getProcFile`). -/
inductive BuildErr where
  | pullPolicyInvalid (s : String)
  | shaInvalid (s : String)
  | mkdirFailed (e : GoErr)
  | tmpDirFailed (e : GoErr)
  | newClientFailed (e : GoErr)
  | getAppConfigFailed (e : CtrlErr)
  | cacheDeleteFailed (e : StorageErr)
  | gitArchiveFailed (e : GoErr)
  | tarExtractFailed (e : GoErr)
  | readTarFailed (e : GoErr)
  | uploadTarFailed (e : GoErr)
  | nodeSelectorInvalid (s : String)
  | registryDetailsFailed (e : GoErr)
  | createSecretFailed (e : GoErr)
  | createPodFailed (e : GoErr)
  | waitForPodFailed (e : GoErr)
  | streamFailed (e : GoErr)
  | fetchLogsFailed (e : GoErr)
  | waitForPodEndFailed (e : GoErr)
  | getPodFailed (e : GoErr)
  | buildPodExited (code : Int)
  | procfileLocalReadFailed (e : GoErr)
  | procfileLocalMalformed (e : GoErr)
  | procfileStorageReadFailed (e : GoErr)
  | procfileStorageMalformed (e : GoErr)
  | publishFailed (e : CtrlErr)
deriving DecidableEq

/-- Overall build outcome: a published release number, a classified failure,
or a runtime panic (nil-pointer dereference). -/
inductive BuildRes where
  | success (release : Int)
  | failure (e : BuildErr)
  | panicked
deriving DecidableEq

/-- The two builder pod kinds. -/
inductive PodKind where
  | slug
  | docker
deriving DecidableEq

/-- Externally visible actions performed by the build, in order. -/
inductive Event where
  | statCache (key : String)
  | deleteCache (key : String)
  | putTar (key : String)
  | secretCreate (name : String)
  | secretDelete (name : String)
  | podCreate (kind : PodKind) (name : String)
  | createBuild (image : String) (stackName : String) (isContainer : Bool) (procType : ProcessType)
deriving DecidableEq

/-- Oracle for the outcomes of every external call the build makes, in
source order.  Fields named `...Err` are `none` when the call succeeds.
`stack` is the value computed by `getStack` (repository code not under
`src/`; its inputs are the unpacked tree and the app config, both external
state, so its result is an oracle input).  `registryBase` is the registry
prefix read by `getRegistryDetails` (modelled from the spec below). -/
structure World where
  mkdirErr : Option GoErr
  tmpDirErr : Option GoErr
  newClientErr : Option GoErr
  appConfig : AppConfig
  getAppConfigErr : Option CtrlErr
  statCacheErr : Option StorageErr
  deleteCacheErr : Option StorageErr
  gitArchiveErr : Option GoErr
  tarExtractErr : Option GoErr
  stack : Stack
  readTarErr : Option GoErr
  putTarErr : Option GoErr
  registryBase : Except GoErr String
  createSecretErr : Option GoErr
  createPodErr : Option GoErr
  waitForPodErr : Option GoErr
  streamErr : Option GoErr
  copyErr : Option GoErr
  waitForPodEndErr : Option GoErr
  getPodErr : Option GoErr
  containerStatuses : List ContainerStatus
  procOracle : ProcOracle
  createBuildRelease : Int
  createBuildErr : Option CtrlErr

/-- The configuration values consumed by the modelled part of `build`. -/
structure Config where
  app : String
  registryLocation : String
  dockerBuilderImagePullPolicy : String
  slugBuilderImagePullPolicy : String
  builderPodNodeSelector : String

/-- Direct translation of `controller.CheckAPICompat`
(src/pkg/controller/utils.go, lines 29-40): the ErrAPIMismatch sentinel is
logged as a warning and downgraded to success (nil); every other error is
passed through unchanged. -/
def CheckAPICompat (err : Option CtrlErr) : Option CtrlErr :=
  match err with
  | some .apiMismatch => none
  | e => e

/-- Boolean test that the first character list is an initial segment of the second. -/
def charsStartWith : List Char → List Char → Bool
  | [], _ => true
  | _ :: _, [] => false
  | a :: p, b :: l => a == b && charsStartWith p l

/-- Boolean substring containment on character lists. -/
def charsContain (sub : List Char) : List Char → Bool
  | [] => sub.isEmpty
  | b :: t => charsStartWith sub (b :: t) || charsContain sub t

/-- Model of Go `strings.Contains s sub`: `sub` occurs as a substring of `s`. -/
def strContains (s sub : String) : Bool :=
  charsContain sub.data s.data

/-- Go map assignment on an association list: overwrite the value when the
key is present, otherwise append the binding. -/
def mapInsert (m : List (String × String)) (k v : String) : List (String × String) :=
  if m.any (fun p => p.1 == k) then
    m.map (fun p => if p.1 == k then (k, v) else p)
  else
    m ++ [(k, v)]

/-- Split a character list at every occurrence of the separator, modelling
Go `strings.Split` with a one-character separator. -/
def charsSplit (sep : Char) : List Char → List (List Char)
  | [] => [[]]
  | c :: t =>
    if c == sep then [] :: charsSplit sep t
    else
      match charsSplit sep t with
      | [] => [[c]]
      | h :: t2 => (c :: h) :: t2

/-- Model of Go `strings.Split s sep` for a one-character separator (the
source only ever splits on "," and ":"). -/
def goSplit (s : String) (sep : Char) : List String :=
  (charsSplit sep s.data).map fun cs => ⟨cs⟩

/-- Whitespace recognized when trimming, modelling Go `unicode.IsSpace` on
the ASCII range. -/
def isSpaceChar (c : Char) : Bool :=
  c == ' ' || c == '\t' || c == '\n' || c == '\r'

/-- Drop leading whitespace characters. -/
def dropLeadingSpace : List Char → List Char
  | [] => []
  | c :: t => if isSpaceChar c then dropLeadingSpace t else c :: t

/-- Model of Go `strings.TrimSpace`: remove whitespace from both ends. -/
def goTrim (s : String) : String :=
  ⟨(dropLeadingSpace (dropLeadingSpace s.data.reverse).reverse)⟩

/-- Direct translation of `buildBuilderPodNodeSelector`
(src/unnamed/part_001, lines 327-339): the empty configuration yields an
empty selector; otherwise the string is split on commas, each part is split
on colons and must have exactly two fields, which are trimmed of surrounding
whitespace and inserted into the selector map. -/
def buildBuilderPodNodeSelector (config : String) : Except String (List (String × String)) :=
  if config ≠ "" then
    (goSplit config ',').foldlM
      (fun selector line =>
        match goSplit line ':' with
        | [k, v] => Except.ok (mapInsert selector (goTrim k) (goTrim v))
        | _ => Except.error ("Invalid BuilderPodNodeSelector value format: " ++ config))
      []
  else
    Except.ok []

/-- Direct translation of `getProcFile` (src/unnamed/part_001, lines
353-377): if {tmpDir}/Procfile exists it is read and YAML-decoded (read or
decode failure is an error); otherwise a container stack yields the empty
mapping; otherwise the Procfile is fetched from object storage at
`procfileKey` and YAML-decoded (fetch or decode failure is an error). -/
def getProcFile (o : ProcOracle) (procfileKey : String) (stack : Stack) : Except BuildErr ProcessType :=
  if o.localExists then
    match o.localBytes with
    | .error e => .error (.procfileLocalReadFailed e)
    | .ok raw =>
      match o.yaml raw with
      | .error e => .error (.procfileLocalMalformed e)
      | .ok pt => .ok pt
  else if stack.name = "container" then
    .ok []
  else
    match o.getContent procfileKey with
    | .error e => .error (.procfileStorageReadFailed e)
    | .ok raw =>
      match o.yaml raw with
      | .error e => .error (.procfileStorageMalformed e)
      | .ok pt => .ok pt

/-- Outcome of the exit-code inspection loop. -/
inductive InspectRes where
  | allZero
  | failed (code : Int)
  | panicked
deriving DecidableEq

/-- Direct translation of the exit-code loop of `build` (src/unnamed/part_001,
lines 291-296): for each container status, `containerStatus.State.Terminated`
is dereferenced with no nil check (a nil pointer is a runtime panic), and the
first non-zero exit code aborts the build with that code. -/
def inspectExitCodes : List ContainerStatus → InspectRes
  | [] => .allZero
  | cs :: rest =>
    match cs.state.terminated with
    | none => .panicked
    | some t => if t.exitCode ≠ 0 then .failed t.exitCode else inspectExitCodes rest

/-- Sequencing helper: fail with the classified error when the external call
reported one, otherwise continue. -/
def orFail (o : Option GoErr) (mk : GoErr → BuildErr) (k : BuildRes × List Event) : BuildRes × List Event :=
  match o with
  | some e => (.failure (mk e), [])
  | none => k

/-- Prepend the events of an action that has just run to the continuation. -/
def withEvents (pre : List Event) (k : BuildRes × List Event) : BuildRes × List Event :=
  (k.1, pre ++ k.2)

/-- Append the events of a deferred action: in Go, a registered `defer` runs
on every exit path taken after its registration. -/
def withDefer (post : List Event) (k : BuildRes × List Event) : BuildRes × List Event :=
  (k.1, k.2 ++ post)

/-- Direct translation of the cache-invalidation step of `build`
(src/unnamed/part_001, lines 115-124): when caching is disabled, `Stat` is
called on the cache key; only when `Stat` succeeds is `Delete` called, and
only a `Delete` error is fatal — any `Stat` error (NotFound or otherwise)
silently skips the deletion. -/
def cacheInvalidate (w : World) (sbi : SlugBuilderInfo) (k : BuildRes × List Event) : BuildRes × List Event :=
  if sbi.disableCaching then
    match w.statCacheErr with
    | none =>
      match w.deleteCacheErr with
      | some e => (.failure (.cacheDeleteFailed e), [.statCache sbi.cacheKey, .deleteCache sbi.cacheKey])
      | none => withEvents [.statCache sbi.cacheKey, .deleteCache sbi.cacheKey] k
    | some _ => withEvents [.statCache sbi.cacheKey] k
  else k

/-- The image computed in the container branch of `build`
(src/unnamed/part_001, lines 168-176).  `getRegistryDetails` is not under
`src/`; modelled from the spec: for a registry location other than
on-cluster it reads the registry credentials and rewrites the image to the
registry-prefixed name, after which the source (line 175) appends the
:git-{shortSha} tag.  For the on-cluster location the image is left as the
bare app name. -/
def resolveContainerImage (conf : Config) (w : World) (appName shortSha : String) : Except GoErr String :=
  if conf.registryLocation ≠ "on-cluster" then
    match w.registryBase with
    | .error e => .error e
    | .ok base => .ok (base ++ "/" ++ appName ++ ":git-" ++ shortSha)
  else
    .ok appName

/-- The tail of `build` from builder-pod creation onward
(src/unnamed/part_001, lines 241-324), common to both builder kinds: create
the pod, wait for it to start, stream its logs (a copy error is fatal), wait
for it to end, fetch it, inspect the terminal exit codes, resolve the
Procfile, then publish the release — replacing the image by the slug object
key whenever the stack name is not exactly container, and tolerating the API
mismatch sentinel from `CreateBuild`. -/
def buildFromPodCreate (w : World) (stack : Stack) (image : String) (sbi : SlugBuilderInfo)
    (kind : PodKind) (podName : String) : BuildRes × List Event :=
  withEvents [.podCreate kind podName] (
  orFail w.createPodErr .createPodFailed <|
  orFail w.waitForPodErr .waitForPodFailed <|
  orFail w.streamErr .streamFailed <|
  orFail w.copyErr .fetchLogsFailed <|
  orFail w.waitForPodEndErr .waitForPodEndFailed <|
  orFail w.getPodErr .getPodFailed <|
  match inspectExitCodes w.containerStatuses with
  | .panicked => (.panicked, [])
  | .failed code => (.failure (.buildPodExited code), [])
  | .allZero =>
    match getProcFile w.procOracle sbi.absoluteProcfileKey stack with
    | .error e => (.failure e, [])
    | .ok procType =>
      let finalImage := if stack.name ≠ "container" then sbi.absoluteSlugObjectKey else image
      withEvents [.createBuild finalImage stack.name (stack.name == "container") procType] (
      match CheckAPICompat w.createBuildErr with
      | some e => (.failure (.publishFailed e), [])
      | none => (.success w.createBuildRelease, [])))

/-- Direct translation of `build` (src/unnamed/part_001, lines 52-325):
coerce the two pull policies, parse the sha, prepare the filesystem, create
the controller client, fetch the app config (tolerating the API mismatch
sentinel), invalidate the cache when caching is disabled, snapshot and
unpack the revision, upload the tarball, parse the node selector, then
branch on whether the stack name contains the substring container: the
container branch resolves the registry image and creates a docker-{app}-{shortSha}
pod; the slug branch creates the {app}-build-env secret (whose deletion is
deferred to every later exit path) and a slug-{app}-{shortSha} pod.  Pod
construction itself (`dockerBuilderPod` / `slugbuilderPod`) is pure and not
under `src/`; only the pod kind and name are recorded. -/
def build (conf : Config) (w : World) (rawGitSha : String) : BuildRes × List Event :=
  match pullPolicyFromString conf.dockerBuilderImagePullPolicy with
  | .error _ => (.failure (.pullPolicyInvalid conf.dockerBuilderImagePullPolicy), [])
  | .ok _ =>
  match pullPolicyFromString conf.slugBuilderImagePullPolicy with
  | .error _ => (.failure (.pullPolicyInvalid conf.slugBuilderImagePullPolicy), [])
  | .ok _ =>
  match NewSha rawGitSha with
  | none => (.failure (.shaInvalid rawGitSha), [])
  | some gitSha =>
  let appName := conf.app
  orFail w.mkdirErr .mkdirFailed <|
  orFail w.tmpDirErr .tmpDirFailed <|
  orFail w.newClientErr .newClientFailed <|
  match CheckAPICompat w.getAppConfigErr with
  | some e => (.failure (.getAppConfigFailed e), [])
  | none =>
  let disableCaching := w.appConfig.values.any (fun p => p.1 == "DRYCC_DISABLE_CACHE")
  let slugBuilderInfo := NewSlugBuilderInfo appName gitSha.short disableCaching
  cacheInvalidate w slugBuilderInfo <|
  orFail w.gitArchiveErr .gitArchiveFailed <|
  orFail w.tarExtractErr .tarExtractFailed <|
  let stack := w.stack
  orFail w.readTarErr .readTarFailed <|
  withEvents [.putTar slugBuilderInfo.tarKey] (
  orFail w.putTarErr .uploadTarFailed <|
  match buildBuilderPodNodeSelector conf.builderPodNodeSelector with
  | .error e => (.failure (.nodeSelectorInvalid e), [])
  | .ok _ =>
  if strContains stack.name "container" then
    match resolveContainerImage conf w appName gitSha.short with
    | .error e => (.failure (.registryDetailsFailed e), [])
    | .ok image =>
      buildFromPodCreate w stack image slugBuilderInfo .docker ("docker-" ++ appName ++ "-" ++ gitSha.short)
  else
    let envSecretName := appName ++ "-build-env"
    withEvents [.secretCreate envSecretName] (
    orFail w.createSecretErr .createSecretFailed <|
    withDefer [.secretDelete envSecretName] (
    buildFromPodCreate w stack appName slugBuilderInfo .slug ("slug-" ++ appName ++ "-" ++ gitSha.short))))

/-! Reduction lemmas for the sequencing helpers -/

@[simp] theorem orFail_none (mk : GoErr → BuildErr) (k : BuildRes × List Event) :
    orFail none mk k = k := rfl

@[simp] theorem orFail_some (e : GoErr) (mk : GoErr → BuildErr) (k : BuildRes × List Event) :
    orFail (some e) mk k = (.failure (mk e), []) := rfl

@[simp] theorem withEvents_pair (pre : List Event) (r : BuildRes) (evs : List Event) :
    withEvents pre (r, evs) = (r, pre ++ evs) := rfl

@[simp] theorem withDefer_pair (post : List Event) (r : BuildRes) (evs : List Event) :
    withDefer post (r, evs) = (r, evs ++ post) := rfl

@[simp] theorem withEvents_fst (pre : List Event) (k : BuildRes × List Event) :
    (withEvents pre k).1 = k.1 := rfl

@[simp] theorem withDefer_fst (post : List Event) (k : BuildRes × List Event) :
    (withDefer post k).1 = k.1 := rfl

@[simp] theorem withEvents_snd (pre : List Event) (k : BuildRes × List Event) :
    (withEvents pre k).2 = pre ++ k.2 := rfl

@[simp] theorem withDefer_snd (post : List Event) (k : BuildRes × List Event) :
    (withDefer post k).2 = k.2 ++ post := rfl

@[simp] theorem newSlugBuilderInfo_disableCaching (a s : String) (d : Bool) :
    (NewSlugBuilderInfo a s d).disableCaching = d := rfl

@[simp] theorem checkAPICompat_mismatch : CheckAPICompat (some .apiMismatch) = none := rfl

@[simp] theorem checkAPICompat_none : CheckAPICompat none = none := rfl

@[simp] theorem checkAPICompat_other (m : String) :
    CheckAPICompat (some (.other m)) = some (.other m) := rfl

/-! Concrete instances used by witnesses and counterexamples -/

/-- A valid 40-hex commit identifier whose short form is aaaaaaaa. -/
def sha40 : String := "aaaaaaaaaaaaaaaaaaaaaaaaaaaaaaaaaaaaaaaa"

/-- Procfile oracle for a buildpack app: no Procfile on disk, and a
well-formed Procfile in object storage. -/
def procOracleA : ProcOracle :=
  { localExists := false
    localBytes := .ok ""
    yaml := fun _ => .ok [("web", "cmd")]
    getContent := fun _ => .ok "web: cmd" }

/-- Baseline configuration: on-cluster registry, valid pull policies, empty
node selector. -/
def cfgA : Config :=
  { app := "foo"
    registryLocation := "on-cluster"
    dockerBuilderImagePullPolicy := "Always"
    slugBuilderImagePullPolicy := "Always"
    builderPodNodeSelector := "" }

/-- Baseline world: every external call succeeds, a buildpack stack, one
container status that terminated with exit code 0, release number 1. -/
def worldA : World :=
  { mkdirErr := none
    tmpDirErr := none
    newClientErr := none
    appConfig := ⟨[]⟩
    getAppConfigErr := none
    statCacheErr := none
    deleteCacheErr := none
    gitArchiveErr := none
    tarExtractErr := none
    stack := ⟨"heroku-18", "drycc/slugbuilder"⟩
    readTarErr := none
    putTarErr := none
    registryBase := .ok "reg.example.com:5000"
    createSecretErr := none
    createPodErr := none
    waitForPodErr := none
    streamErr := none
    copyErr := none
    waitForPodEndErr := none
    getPodErr := none
    containerStatuses := [⟨⟨some ⟨0⟩⟩⟩]
    procOracle := procOracleA
    createBuildRelease := 1
    createBuildErr := none }

example :
    build cfgA worldA sha40 =
      (.success 1,
       [.putTar "home/foo:git-aaaaaaaa/tar",
        .secretCreate "foo-build-env",
        .podCreate .slug "slug-foo-aaaaaaaa",
        .createBuild "home/foo:git-aaaaaaaa/push/slug.tgz" "heroku-18" false [("web", "cmd")],
        .secretDelete "foo-build-env"]) := by decide

/-! Claim C7: node-selector parsing -/

/-- C7: node-selector parsing maps "a:1,b:2" to the map a:1, b:2 with
whitespace trimmed around keys and values; a pair without exactly one
colon-separated value, such as in "a:1,b", fails with the invalid-format
error used for ConfigInvalid; the empty string parses to an empty map and is
not an error. -/
theorem c7_node_selector_parsing :
    buildBuilderPodNodeSelector "a:1,b:2" = .ok [("a", "1"), ("b", "2")] ∧
    buildBuilderPodNodeSelector " a : 1 , b : 2 " = .ok [("a", "1"), ("b", "2")] ∧
    buildBuilderPodNodeSelector "a:1,b" =
      .error "Invalid BuilderPodNodeSelector value format: a:1,b" ∧
    buildBuilderPodNodeSelector "a:1:2" =
      .error "Invalid BuilderPodNodeSelector value format: a:1:2" ∧
    buildBuilderPodNodeSelector "" = .ok [] := by
  refine ⟨?_, ?_, ?_, ?_, ?_⟩ <;> rfl

/-! Claim C6: Procfile resolution order -/

/-- Classification of a getProcFile result as the specification sees it:
either the resolved mapping, or the single ProcfileInvalid failure. -/
def procResultClass : Except BuildErr ProcessType → Except Unit ProcessType
  | .ok pt => .ok pt
  | .error _ => .error ()

/-- Procfile resolution exactly as the claim words it (the specification
side of the refinement): a Procfile on disk is YAML-parsed, a failure to
read or decode it being ProcfileInvalid; otherwise a container stack yields
the empty mapping; otherwise the Procfile object is fetched from storage at
procfileKey and YAML-decoded, a missing or malformed object being
ProcfileInvalid. -/
def procFileResolutionSpec (o : ProcOracle) (procfileKey : String) (stack : Stack) :
    Except Unit ProcessType :=
  if o.localExists then
    match o.localBytes with
    | .error _ => .error ()
    | .ok raw =>
      match o.yaml raw with
      | .error _ => .error ()
      | .ok pt => .ok pt
  else if stack.name = "container" then
    .ok []
  else
    match o.getContent procfileKey with
    | .error _ => .error ()
    | .ok raw =>
      match o.yaml raw with
      | .error _ => .error ()
      | .ok pt => .ok pt

/-- C6: Procfile resolution proceeds in this order: a Procfile that exists
on disk is parsed as a YAML name-to-command mapping with a malformed file
yielding ProcfileInvalid; otherwise a container stack returns the empty
mapping; otherwise the Procfile is read from object storage at procfileKey
and YAML-decoded, a missing or malformed object yielding ProcfileInvalid.
Stated as: `getProcFile`, classified to spec-level outcomes, coincides with
the resolution order written from the claim. -/
theorem c6_procfile_resolution (o : ProcOracle) (procfileKey : String) (stack : Stack) :
    procResultClass (getProcFile o procfileKey stack) = procFileResolutionSpec o procfileKey stack := by
  unfold getProcFile procFileResolutionSpec
  by_cases hl : o.localExists
  · rcases hb : o.localBytes with e | raw
    · simp [hl, hb, procResultClass]
    · rcases hy : o.yaml raw with e | pt <;> simp [hl, hb, hy, procResultClass]
  · by_cases hc : stack.name = "container"
    · simp [hl, hc, procResultClass]
    · rcases hg : o.getContent procfileKey with e | raw
      · simp [hl, hc, hg, procResultClass]
      · rcases hy : o.yaml raw with e | pt <;> simp [hl, hc, hg, hy, procResultClass]

/-! Claim C1: the image passed to CreateBuild -/

/-- Configuration for a container build of app bar with the on-cluster registry. -/
def cfgC1 : Config :=
  { cfgA with app := "bar" }

/-- World for a fully successful container build (stack name exactly
container) against the on-cluster registry. -/
def worldC1 : World :=
  { worldA with stack := ⟨"container", "drycc/dockerbuilder"⟩ }

/-- C1 counterexample: in a successful container build with the on-cluster
registry, the image passed to CreateBuild is the bare app name bar and not
the tagged bar:git-aaaaaaaa the claim requires (the :git-{shortSha} tag is
appended only in the off-cluster branch of the source). -/
theorem c1_counterexample :
    (build cfgC1 worldC1 sha40).1 = .success 1 ∧
    Event.createBuild "bar" "container" true [] ∈ (build cfgC1 worldC1 sha40).2 ∧
    Event.createBuild "bar:git-aaaaaaaa" "container" true [] ∉ (build cfgC1 worldC1 sha40).2 := by
  decide

/-! Claim C2: a log-stream copy error -/

/-- World identical to the baseline except that copying the followed log
stream to stdout fails; the pod itself exits 0. -/
def worldC2 : World :=
  { worldA with copyErr := some "stream reset by peer" }

/-- C2 counterexample: an error while copying the followed pod log stream
fails the build by itself — with every container exit code zero and every
other external call succeeding, the build returns the fetching-builder-logs
error and never reaches exit-code inspection or CreateBuild, while the
identical world without the copy error succeeds. -/
theorem c2_counterexample :
    (build cfgA worldC2 sha40).1 = .failure (.fetchLogsFailed "stream reset by peer") ∧
    (∀ i s b p, Event.createBuild i s b p ∉ (build cfgA worldC2 sha40).2) ∧
    (build cfgA worldA sha40).1 = .success 1 := by
  have ht : (build cfgA worldC2 sha40).2 =
      [.putTar "home/foo:git-aaaaaaaa/tar", .secretCreate "foo-build-env",
       .podCreate .slug "slug-foo-aaaaaaaa", .secretDelete "foo-build-env"] := by decide
  refine ⟨by decide, ?_, by decide⟩
  intro i s b p h
  rw [ht] at h
  simp at h

/-! Claim C3: cache invalidation under disableCaching -/

/-- World with caching disabled via DRYCC_DISABLE_CACHE and a Stat call on
the cache key that fails with a storage error other than NotFound. -/
def worldC3 : World :=
  { worldA with
    appConfig := ⟨[("DRYCC_DISABLE_CACHE", "1")]⟩
    statCacheErr := some (.other "storage unavailable") }

/-- C3 counterexample: with disableCaching set, a Stat error other than
NotFound is not fatal to the build — the source only tests Stat for success
— so the build skips the deletion and completes successfully, where the
claim requires the storage error to be fatal. -/
theorem c3_counterexample :
    (build cfgC1 worldC3 sha40).1 = .success 1 ∧
    (∀ k, Event.deleteCache k ∉ (build cfgC1 worldC3 sha40).2) := by
  have ht : (build cfgC1 worldC3 sha40).2 =
      [.statCache "home/bar/cache", .putTar "home/bar:git-aaaaaaaa/tar",
       .secretCreate "bar-build-env", .podCreate .slug "slug-bar-aaaaaaaa",
       .createBuild "home/bar:git-aaaaaaaa/push/slug.tgz" "heroku-18" false [("web", "cmd")],
       .secretDelete "bar-build-env"] := by decide
  refine ⟨by decide, ?_⟩
  intro k h
  rw [ht] at h
  simp at h

/-! Claim C8: the per-app env secret is deleted on every exit path -/

/-- C8: for every slug-builder build (any stack whose name does not contain
the substring container) that reaches creation of the {app}-build-env
secret, the deferred deletion of that secret runs on every exit path, so the
event trace of the build — whether it succeeds or fails later — ends with
the secret-delete event. -/
theorem c8_secret_deleted_every_exit
    (conf : Config) (w : World) (rawGitSha : String) (gitSha : GitSha)
    (pd ps : PullPolicy) (ns : List (String × String))
    (hpd : pullPolicyFromString conf.dockerBuilderImagePullPolicy = .ok pd)
    (hps : pullPolicyFromString conf.slugBuilderImagePullPolicy = .ok ps)
    (hsha : NewSha rawGitSha = some gitSha)
    (hmk : w.mkdirErr = none)
    (htmp : w.tmpDirErr = none)
    (hcl : w.newClientErr = none)
    (hac : CheckAPICompat w.getAppConfigErr = none)
    (hdc : w.appConfig.values.any (fun p => p.1 == "DRYCC_DISABLE_CACHE") = false)
    (harc : w.gitArchiveErr = none)
    (htar : w.tarExtractErr = none)
    (hread : w.readTarErr = none)
    (hput : w.putTarErr = none)
    (hns : buildBuilderPodNodeSelector conf.builderPodNodeSelector = .ok ns)
    (hcont : strContains w.stack.name "container" = false)
    (hsec : w.createSecretErr = none) :
    ∃ evs, (build conf w rawGitSha).2 = evs ++ [Event.secretDelete (conf.app ++ "-build-env")] := by
  refine ⟨Event.putTar (NewSlugBuilderInfo conf.app gitSha.short false).tarKey ::
    Event.secretCreate (conf.app ++ "-build-env") ::
    (buildFromPodCreate w w.stack conf.app (NewSlugBuilderInfo conf.app gitSha.short false)
      .slug ("slug-" ++ conf.app ++ "-" ++ gitSha.short)).2, ?_⟩
  simp [build, hpd, hps, hsha, hmk, htmp, hcl, hac, hdc, harc, htar, hread, hput, hns,
    hcont, hsec, cacheInvalidate]

/-- World in which builder-pod creation fails, exhibiting a failing exit
path taken after the env secret was created. -/
def worldC8 : World :=
  { worldA with createPodErr := some "pod quota exceeded" }

/-- Witness for C8 at a concrete failing build: even though pod creation
fails, the trace still ends with the secret-delete event. -/
theorem c8_witness :
    ∃ evs, (build cfgA worldC8 sha40).2 = evs ++ [Event.secretDelete (cfgA.app ++ "-build-env")] :=
  c8_secret_deleted_every_exit cfgA worldC8 sha40 ⟨sha40, "aaaaaaaa"⟩ .always .always []
    (by rfl) (by rfl) (by decide) rfl rfl rfl rfl rfl rfl rfl rfl rfl (by rfl)
    (by decide) rfl

/-! Claim C9: stack names that contain but are not exactly container -/

/-- C9: for every successful build whose stack name contains the substring
container but is not exactly container, the docker-builder branch is taken
(a docker-{app}-{shortSha} pod is created), yet the release is published
with the image set to the slug object key and isContainer false, because
pod-kind selection uses substring containment while publishing uses string
equality. -/
theorem c9_container_substring_mismatch
    (conf : Config) (w : World) (rawGitSha : String) (gitSha : GitSha)
    (pd ps : PullPolicy) (ns : List (String × String)) (img : String) (pt : ProcessType)
    (hpd : pullPolicyFromString conf.dockerBuilderImagePullPolicy = .ok pd)
    (hps : pullPolicyFromString conf.slugBuilderImagePullPolicy = .ok ps)
    (hsha : NewSha rawGitSha = some gitSha)
    (hmk : w.mkdirErr = none)
    (htmp : w.tmpDirErr = none)
    (hcl : w.newClientErr = none)
    (hac : CheckAPICompat w.getAppConfigErr = none)
    (hdc : w.appConfig.values.any (fun p => p.1 == "DRYCC_DISABLE_CACHE") = false)
    (harc : w.gitArchiveErr = none)
    (htar : w.tarExtractErr = none)
    (hread : w.readTarErr = none)
    (hput : w.putTarErr = none)
    (hns : buildBuilderPodNodeSelector conf.builderPodNodeSelector = .ok ns)
    (hcont : strContains w.stack.name "container" = true)
    (hne : w.stack.name ≠ "container")
    (himg : resolveContainerImage conf w conf.app gitSha.short = .ok img)
    (hpod : w.createPodErr = none)
    (hwait : w.waitForPodErr = none)
    (hstream : w.streamErr = none)
    (hcopy : w.copyErr = none)
    (hend : w.waitForPodEndErr = none)
    (hget : w.getPodErr = none)
    (hinspect : inspectExitCodes w.containerStatuses = .allZero)
    (hproc : getProcFile w.procOracle
      (NewSlugBuilderInfo conf.app gitSha.short false).absoluteProcfileKey w.stack = .ok pt)
    (hcb : CheckAPICompat w.createBuildErr = none) :
    build conf w rawGitSha =
      (.success w.createBuildRelease,
       [Event.putTar (NewSlugBuilderInfo conf.app gitSha.short false).tarKey,
        Event.podCreate .docker ("docker-" ++ conf.app ++ "-" ++ gitSha.short),
        Event.createBuild (NewSlugBuilderInfo conf.app gitSha.short false).absoluteSlugObjectKey
          w.stack.name false pt]) := by
  simp [build, buildFromPodCreate, hpd, hps, hsha, hmk, htmp, hcl, hac, hdc, harc, htar,
    hread, hput, hns, hcont, hne, himg, hpod, hwait, hstream, hcopy, hend, hget, hinspect,
    hproc, hcb, cacheInvalidate]

/-- World for a successful build whose stack name strictly contains container. -/
def worldC9 : World :=
  { worldA with stack := ⟨"my-container-stack", "example/builder"⟩ }

/-- Witness for C9 at a concrete build with stack name my-container-stack:
a docker pod is created, yet the release image is the slug object key and
isContainer is false. -/
theorem c9_witness :
    build cfgA worldC9 sha40 =
      (.success worldC9.createBuildRelease,
       [Event.putTar (NewSlugBuilderInfo cfgA.app "aaaaaaaa" false).tarKey,
        Event.podCreate .docker ("docker-" ++ cfgA.app ++ "-" ++ "aaaaaaaa"),
        Event.createBuild (NewSlugBuilderInfo cfgA.app "aaaaaaaa" false).absoluteSlugObjectKey
          worldC9.stack.name false [("web", "cmd")]]) :=
  c9_container_substring_mismatch cfgA worldC9 sha40 ⟨sha40, "aaaaaaaa"⟩ .always .always []
    "foo" [("web", "cmd")]
    (by rfl) (by rfl) (by decide) rfl rfl rfl rfl rfl rfl rfl rfl rfl (by rfl)
    (by decide) (by decide) (by rfl) rfl rfl rfl rfl rfl rfl (by decide) (by rfl) rfl

/-! Claim C10: exit-code inspection and the nil Terminated pointer -/

/-- When every container status carries a non-nil Terminated state, the
exit-code inspection loop cannot hit the nil-pointer dereference. -/
theorem inspectExitCodes_ne_panicked (l : List ContainerStatus)
    (h : ∀ cs ∈ l, (cs.state.terminated).isSome = true) :
    inspectExitCodes l ≠ .panicked := by
  induction l with
  | nil => simp [inspectExitCodes]
  | cons cs rest ih =>
    have hcs := h cs (by simp)
    rcases ht : cs.state.terminated with _ | t
    · rw [ht] at hcs
      simp at hcs
    · simp only [inspectExitCodes, ht]
      split
      · simp
      · exact ih fun c hc => h c (by simp [hc])

/-- World whose single container status carries a nil Terminated state. -/
def worldC10 : World :=
  { worldA with containerStatuses := [⟨⟨none⟩⟩] }

/-- C10: exit-code inspection dereferences Terminated without a nil check;
under the precondition that every container status of the fetched pod
carries a non-nil Terminated state, a build that reaches the inspection does
not hit the nil-pointer panic — and with a nil Terminated state it does, as
the inspection of a nil status and a concrete build over it show. -/
theorem c10_exit_inspection_nil_safety
    (conf : Config) (w : World) (rawGitSha : String) (gitSha : GitSha)
    (pd ps : PullPolicy) (ns : List (String × String))
    (hpd : pullPolicyFromString conf.dockerBuilderImagePullPolicy = .ok pd)
    (hps : pullPolicyFromString conf.slugBuilderImagePullPolicy = .ok ps)
    (hsha : NewSha rawGitSha = some gitSha)
    (hmk : w.mkdirErr = none)
    (htmp : w.tmpDirErr = none)
    (hcl : w.newClientErr = none)
    (hac : CheckAPICompat w.getAppConfigErr = none)
    (hdc : w.appConfig.values.any (fun p => p.1 == "DRYCC_DISABLE_CACHE") = false)
    (harc : w.gitArchiveErr = none)
    (htar : w.tarExtractErr = none)
    (hread : w.readTarErr = none)
    (hput : w.putTarErr = none)
    (hns : buildBuilderPodNodeSelector conf.builderPodNodeSelector = .ok ns)
    (hcont : strContains w.stack.name "container" = false)
    (hsec : w.createSecretErr = none)
    (hpod : w.createPodErr = none)
    (hwait : w.waitForPodErr = none)
    (hstream : w.streamErr = none)
    (hcopy : w.copyErr = none)
    (hend : w.waitForPodEndErr = none)
    (hget : w.getPodErr = none)
    (hterm : ∀ cs ∈ w.containerStatuses, (cs.state.terminated).isSome = true) :
    (build conf w rawGitSha).1 ≠ .panicked ∧
    inspectExitCodes [⟨⟨none⟩⟩] = .panicked ∧
    (build cfgA worldC10 sha40).1 = .panicked := by
  refine ⟨?_, rfl, by decide⟩
  simp only [build, buildFromPodCreate, hpd, hps, hsha, hmk, htmp, hcl, hac, hdc, harc,
    htar, hread, hput, hns, hcont, hsec, hpod, hwait, hstream, hcopy, hend, hget,
    cacheInvalidate, newSlugBuilderInfo_disableCaching, orFail_none, withEvents_fst,
    withDefer_fst, Bool.false_eq_true, if_false, ite_false]
  split
  · exact absurd (by assumption) (inspectExitCodes_ne_panicked _ hterm)
  · simp
  · split
    · simp
    · simp only [withEvents_fst]
      split <;> simp

/-- Witness for C10 at the baseline build, whose single container status
terminated with exit code 0. -/
theorem c10_witness :
    (build cfgA worldA sha40).1 ≠ .panicked ∧
    inspectExitCodes [⟨⟨none⟩⟩] = .panicked ∧
    (build cfgA worldC10 sha40).1 = .panicked :=
  c10_exit_inspection_nil_safety cfgA worldA sha40 ⟨sha40, "aaaaaaaa"⟩ .always .always []
    (by rfl) (by rfl) (by decide) rfl rfl rfl rfl rfl rfl rfl rfl rfl (by rfl) (by decide) rfl
    rfl rfl rfl rfl rfl rfl (by decide)

/-! Claim C4: a non-zero exit code fails the build before CreateBuild -/

/-- When every container status is terminated and some status carries a
non-zero exit code, the inspection loop reports a non-zero failure code. -/
theorem inspectExitCodes_failed_of_nonzero (l : List ContainerStatus)
    (hterm : ∀ cs ∈ l, (cs.state.terminated).isSome = true)
    (hnz : ∃ cs ∈ l, ∃ t, cs.state.terminated = some t ∧ t.exitCode ≠ 0) :
    ∃ c, c ≠ 0 ∧ inspectExitCodes l = .failed c := by
  induction l with
  | nil => simp at hnz
  | cons cs rest ih =>
    rcases ht : cs.state.terminated with _ | t
    · have hcs := hterm cs (by simp)
      rw [ht] at hcs
      simp at hcs
    · by_cases hz : t.exitCode ≠ 0
      · exact ⟨t.exitCode, hz, by simp [inspectExitCodes, ht, hz]⟩
      · have h0 : t.exitCode = 0 := not_not.mp hz
        rcases hnz with ⟨c, hc, t2, ht2, ht2nz⟩
        rcases List.mem_cons.mp hc with rfl | hmem
        · rw [ht] at ht2
          cases ht2
          exact absurd h0 ht2nz
        · obtain ⟨c', hc', heq⟩ :=
            ih (fun x hx => hterm x (List.mem_cons_of_mem _ hx)) ⟨c, hmem, t2, ht2, ht2nz⟩
          exact ⟨c', hc', by simp [inspectExitCodes, ht, h0, heq]⟩

/-- C4: for every build whose fetched pod has all container statuses
terminated and at least one with a non-zero exit code, the build fails with
the builder-failed error carrying a non-zero code, and no CreateBuild call
is ever made — in the container branch and in the slug branch alike. -/
theorem c4_nonzero_exit_blocks_publish
    (conf : Config) (w : World) (rawGitSha : String) (gitSha : GitSha)
    (pd ps : PullPolicy) (ns : List (String × String))
    (hpd : pullPolicyFromString conf.dockerBuilderImagePullPolicy = .ok pd)
    (hps : pullPolicyFromString conf.slugBuilderImagePullPolicy = .ok ps)
    (hsha : NewSha rawGitSha = some gitSha)
    (hmk : w.mkdirErr = none)
    (htmp : w.tmpDirErr = none)
    (hcl : w.newClientErr = none)
    (hac : CheckAPICompat w.getAppConfigErr = none)
    (hdc : w.appConfig.values.any (fun p => p.1 == "DRYCC_DISABLE_CACHE") = false)
    (harc : w.gitArchiveErr = none)
    (htar : w.tarExtractErr = none)
    (hread : w.readTarErr = none)
    (hput : w.putTarErr = none)
    (hns : buildBuilderPodNodeSelector conf.builderPodNodeSelector = .ok ns)
    (hpod : w.createPodErr = none)
    (hwait : w.waitForPodErr = none)
    (hstream : w.streamErr = none)
    (hcopy : w.copyErr = none)
    (hend : w.waitForPodEndErr = none)
    (hget : w.getPodErr = none)
    (hterm : ∀ cs ∈ w.containerStatuses, (cs.state.terminated).isSome = true)
    (hnz : ∃ cs ∈ w.containerStatuses, ∃ t, cs.state.terminated = some t ∧ t.exitCode ≠ 0) :
    ∃ c, c ≠ 0 ∧
      (strContains w.stack.name "container" = true →
        ∀ img, resolveContainerImage conf w conf.app gitSha.short = .ok img →
          build conf w rawGitSha =
            (.failure (.buildPodExited c),
             [Event.putTar (NewSlugBuilderInfo conf.app gitSha.short false).tarKey,
              Event.podCreate .docker ("docker-" ++ conf.app ++ "-" ++ gitSha.short)]) ∧
          ∀ i s b p, Event.createBuild i s b p ∉ (build conf w rawGitSha).2) ∧
      (strContains w.stack.name "container" = false → w.createSecretErr = none →
        build conf w rawGitSha =
          (.failure (.buildPodExited c),
           [Event.putTar (NewSlugBuilderInfo conf.app gitSha.short false).tarKey,
            Event.secretCreate (conf.app ++ "-build-env"),
            Event.podCreate .slug ("slug-" ++ conf.app ++ "-" ++ gitSha.short),
            Event.secretDelete (conf.app ++ "-build-env")]) ∧
        ∀ i s b p, Event.createBuild i s b p ∉ (build conf w rawGitSha).2) := by
  obtain ⟨c, hc, heq⟩ := inspectExitCodes_failed_of_nonzero w.containerStatuses hterm hnz
  refine ⟨c, hc, ?_, ?_⟩
  · intro hcont img himg
    have hb : build conf w rawGitSha =
        (.failure (.buildPodExited c),
         [Event.putTar (NewSlugBuilderInfo conf.app gitSha.short false).tarKey,
          Event.podCreate .docker ("docker-" ++ conf.app ++ "-" ++ gitSha.short)]) := by
      simp [build, buildFromPodCreate, hpd, hps, hsha, hmk, htmp, hcl, hac, hdc, harc,
        htar, hread, hput, hns, hcont, himg, hpod, hwait, hstream, hcopy, hend, hget,
        heq, cacheInvalidate]
    refine ⟨hb, ?_⟩
    intro i s b p hmem
    rw [hb] at hmem
    simp at hmem
  · intro hcont hsec
    have hb : build conf w rawGitSha =
        (.failure (.buildPodExited c),
         [Event.putTar (NewSlugBuilderInfo conf.app gitSha.short false).tarKey,
          Event.secretCreate (conf.app ++ "-build-env"),
          Event.podCreate .slug ("slug-" ++ conf.app ++ "-" ++ gitSha.short),
          Event.secretDelete (conf.app ++ "-build-env")]) := by
      simp [build, buildFromPodCreate, hpd, hps, hsha, hmk, htmp, hcl, hac, hdc, harc,
        htar, hread, hput, hns, hcont, hsec, hpod, hwait, hstream, hcopy, hend, hget,
        heq, cacheInvalidate]
    refine ⟨hb, ?_⟩
    intro i s b p hmem
    rw [hb] at hmem
    simp at hmem

/-- World for the builder-failure scenario: the pod's only container
terminated with exit code 7. -/
def worldC4 : World :=
  { worldA with containerStatuses := [⟨⟨some ⟨7⟩⟩⟩] }

/-- Witness for C4 at a concrete slug build whose container exited with
code 7: the build fails with that code and publishes nothing. -/
theorem c4_witness :
    ∃ c, c ≠ (0 : Int) ∧
      build cfgA worldC4 sha40 =
        (.failure (.buildPodExited c),
         [Event.putTar (NewSlugBuilderInfo cfgA.app "aaaaaaaa" false).tarKey,
          Event.secretCreate (cfgA.app ++ "-build-env"),
          Event.podCreate .slug ("slug-" ++ cfgA.app ++ "-" ++ "aaaaaaaa"),
          Event.secretDelete (cfgA.app ++ "-build-env")]) := by
  obtain ⟨c, hc, _, hslug⟩ :=
    c4_nonzero_exit_blocks_publish cfgA worldC4 sha40 ⟨sha40, "aaaaaaaa"⟩ .always .always []
      (by rfl) (by rfl) (by decide) rfl rfl rfl rfl rfl rfl rfl rfl rfl (by rfl)
      rfl rfl rfl rfl rfl rfl (by decide) ⟨⟨⟨some ⟨7⟩⟩⟩, by decide, ⟨7⟩, rfl, by decide⟩
  exact ⟨c, hc, (hslug (by decide) rfl).1⟩

/-! Claim C5: the APIVersionMismatch sentinel is tolerated for both controller calls -/

/-- C5: for both controller operations, the APIVersionMismatch sentinel is
downgraded to success — a build whose GetAppConfig (respectively
CreateBuild) returns the sentinel behaves exactly like one whose call
returned no error, proceeding with the response — while every other error
from these operations is fatal to the build at that point. -/
theorem c5_api_mismatch_tolerated
    (conf : Config) (w : World) (rawGitSha : String) (gitSha : GitSha)
    (pd ps : PullPolicy) (ns : List (String × String)) (pt : ProcessType)
    (hpd : pullPolicyFromString conf.dockerBuilderImagePullPolicy = .ok pd)
    (hps : pullPolicyFromString conf.slugBuilderImagePullPolicy = .ok ps)
    (hsha : NewSha rawGitSha = some gitSha)
    (hmk : w.mkdirErr = none)
    (htmp : w.tmpDirErr = none)
    (hcl : w.newClientErr = none)
    (hac : CheckAPICompat w.getAppConfigErr = none)
    (hdc : w.appConfig.values.any (fun p => p.1 == "DRYCC_DISABLE_CACHE") = false)
    (harc : w.gitArchiveErr = none)
    (htar : w.tarExtractErr = none)
    (hread : w.readTarErr = none)
    (hput : w.putTarErr = none)
    (hns : buildBuilderPodNodeSelector conf.builderPodNodeSelector = .ok ns)
    (hcont : strContains w.stack.name "container" = false)
    (hne : w.stack.name ≠ "container")
    (hsec : w.createSecretErr = none)
    (hpod : w.createPodErr = none)
    (hwait : w.waitForPodErr = none)
    (hstream : w.streamErr = none)
    (hcopy : w.copyErr = none)
    (hend : w.waitForPodEndErr = none)
    (hget : w.getPodErr = none)
    (hinspect : inspectExitCodes w.containerStatuses = .allZero)
    (hproc : getProcFile w.procOracle
      (NewSlugBuilderInfo conf.app gitSha.short false).absoluteProcfileKey w.stack = .ok pt) :
    build conf { w with getAppConfigErr := some .apiMismatch } rawGitSha =
      build conf { w with getAppConfigErr := none } rawGitSha ∧
    (∀ m, build conf { w with getAppConfigErr := some (.other m) } rawGitSha =
      (.failure (.getAppConfigFailed (.other m)), [])) ∧
    build conf { w with createBuildErr := some .apiMismatch } rawGitSha =
      build conf { w with createBuildErr := none } rawGitSha ∧
    (∀ m, build conf { w with createBuildErr := some (.other m) } rawGitSha =
      (.failure (.publishFailed (.other m)),
       [Event.putTar (NewSlugBuilderInfo conf.app gitSha.short false).tarKey,
        Event.secretCreate (conf.app ++ "-build-env"),
        Event.podCreate .slug ("slug-" ++ conf.app ++ "-" ++ gitSha.short),
        Event.createBuild (NewSlugBuilderInfo conf.app gitSha.short false).absoluteSlugObjectKey
          w.stack.name false pt,
        Event.secretDelete (conf.app ++ "-build-env")])) := by
  refine ⟨?_, ?_, ?_, ?_⟩
  · simp [build, buildFromPodCreate, hpd, hps, hsha, hmk, htmp, hcl, hdc, harc, htar,
      hread, hput, hns, hcont, hne, hsec, hpod, hwait, hstream, hcopy, hend, hget,
      hinspect, hproc, cacheInvalidate]
  · intro m
    simp [build, hpd, hps, hsha, hmk, htmp, hcl]
  · simp [build, buildFromPodCreate, hpd, hps, hsha, hmk, htmp, hcl, hac, hdc, harc, htar,
      hread, hput, hns, hcont, hne, hsec, hpod, hwait, hstream, hcopy, hend, hget,
      hinspect, hproc, cacheInvalidate]
  · intro m
    simp [build, buildFromPodCreate, hpd, hps, hsha, hmk, htmp, hcl, hac, hdc, harc, htar,
      hread, hput, hns, hcont, hne, hsec, hpod, hwait, hstream, hcopy, hend, hget,
      hinspect, hproc, cacheInvalidate]

/-- Witness for C5 at the baseline build. -/
theorem c5_witness :
    build cfgA { worldA with getAppConfigErr := some .apiMismatch } sha40 =
      build cfgA { worldA with getAppConfigErr := none } sha40 ∧
    (∀ m, build cfgA { worldA with getAppConfigErr := some (.other m) } sha40 =
      (.failure (.getAppConfigFailed (.other m)), [])) ∧
    build cfgA { worldA with createBuildErr := some .apiMismatch } sha40 =
      build cfgA { worldA with createBuildErr := none } sha40 ∧
    (∀ m, build cfgA { worldA with createBuildErr := some (.other m) } sha40 =
      (.failure (.publishFailed (.other m)),
       [Event.putTar (NewSlugBuilderInfo cfgA.app "aaaaaaaa" false).tarKey,
        Event.secretCreate (cfgA.app ++ "-build-env"),
        Event.podCreate .slug ("slug-" ++ cfgA.app ++ "-" ++ "aaaaaaaa"),
        Event.createBuild (NewSlugBuilderInfo cfgA.app "aaaaaaaa" false).absoluteSlugObjectKey
          worldA.stack.name false [("web", "cmd")],
        Event.secretDelete (cfgA.app ++ "-build-env")])) :=
  c5_api_mismatch_tolerated cfgA worldA sha40 ⟨sha40, "aaaaaaaa"⟩ .always .always []
    [("web", "cmd")]
    (by rfl) (by rfl) (by decide) rfl rfl rfl rfl rfl rfl rfl rfl rfl (by rfl)
    (by decide) (by decide) rfl rfl rfl rfl rfl rfl rfl (by decide) (by rfl)

/-- Substring containment is reflexive on the literal container. -/
theorem strContains_container_refl : strContains "container" "container" = true := by decide

/-- C1 amended: for every successful container build (stack name exactly
container) against an off-cluster registry the image passed to CreateBuild
is {registry}/{app}:git-{shortSha}; against the on-cluster registry it is
the bare untagged {app}; for every other successful build it is the slug
object key. -/
theorem c1_amended_create_build_image
    (conf : Config) (w : World) (rawGitSha : String) (gitSha : GitSha)
    (pd ps : PullPolicy) (ns : List (String × String)) (pt : ProcessType)
    (hpd : pullPolicyFromString conf.dockerBuilderImagePullPolicy = .ok pd)
    (hps : pullPolicyFromString conf.slugBuilderImagePullPolicy = .ok ps)
    (hsha : NewSha rawGitSha = some gitSha)
    (hmk : w.mkdirErr = none)
    (htmp : w.tmpDirErr = none)
    (hcl : w.newClientErr = none)
    (hac : CheckAPICompat w.getAppConfigErr = none)
    (hdc : w.appConfig.values.any (fun p => p.1 == "DRYCC_DISABLE_CACHE") = false)
    (harc : w.gitArchiveErr = none)
    (htar : w.tarExtractErr = none)
    (hread : w.readTarErr = none)
    (hput : w.putTarErr = none)
    (hns : buildBuilderPodNodeSelector conf.builderPodNodeSelector = .ok ns)
    (hpod : w.createPodErr = none)
    (hwait : w.waitForPodErr = none)
    (hstream : w.streamErr = none)
    (hcopy : w.copyErr = none)
    (hend : w.waitForPodEndErr = none)
    (hget : w.getPodErr = none)
    (hinspect : inspectExitCodes w.containerStatuses = .allZero)
    (hproc : getProcFile w.procOracle
      (NewSlugBuilderInfo conf.app gitSha.short false).absoluteProcfileKey w.stack = .ok pt)
    (hcb : CheckAPICompat w.createBuildErr = none) :
    (strContains w.stack.name "container" = true → w.stack.name = "container" →
      conf.registryLocation = "on-cluster" →
      build conf w rawGitSha =
        (.success w.createBuildRelease,
         [Event.putTar (NewSlugBuilderInfo conf.app gitSha.short false).tarKey,
          Event.podCreate .docker ("docker-" ++ conf.app ++ "-" ++ gitSha.short),
          Event.createBuild conf.app "container" true pt])) ∧
    (strContains w.stack.name "container" = true → w.stack.name = "container" →
      conf.registryLocation ≠ "on-cluster" →
      ∀ base, w.registryBase = .ok base →
      build conf w rawGitSha =
        (.success w.createBuildRelease,
         [Event.putTar (NewSlugBuilderInfo conf.app gitSha.short false).tarKey,
          Event.podCreate .docker ("docker-" ++ conf.app ++ "-" ++ gitSha.short),
          Event.createBuild (base ++ "/" ++ conf.app ++ ":git-" ++ gitSha.short)
            "container" true pt])) ∧
    (strContains w.stack.name "container" = false → w.stack.name ≠ "container" →
      w.createSecretErr = none →
      build conf w rawGitSha =
        (.success w.createBuildRelease,
         [Event.putTar (NewSlugBuilderInfo conf.app gitSha.short false).tarKey,
          Event.secretCreate (conf.app ++ "-build-env"),
          Event.podCreate .slug ("slug-" ++ conf.app ++ "-" ++ gitSha.short),
          Event.createBuild (NewSlugBuilderInfo conf.app gitSha.short false).absoluteSlugObjectKey
            w.stack.name false pt,
          Event.secretDelete (conf.app ++ "-build-env")])) ∧
    (strContains w.stack.name "container" = true → w.stack.name ≠ "container" →
      ∀ img, resolveContainerImage conf w conf.app gitSha.short = .ok img →
      build conf w rawGitSha =
        (.success w.createBuildRelease,
         [Event.putTar (NewSlugBuilderInfo conf.app gitSha.short false).tarKey,
          Event.podCreate .docker ("docker-" ++ conf.app ++ "-" ++ gitSha.short),
          Event.createBuild (NewSlugBuilderInfo conf.app gitSha.short false).absoluteSlugObjectKey
            w.stack.name false pt])) := by
  refine ⟨?_, ?_, ?_, ?_⟩
  · intro hcc hc hon
    simp [build, buildFromPodCreate, resolveContainerImage, hpd, hps, hsha, hmk, htmp,
      hcl, hac, hdc, harc, htar, hread, hput, hns, hcc, hc, hon, hpod, hwait, hstream,
      hcopy, hend, hget, hinspect, hproc, hcb, cacheInvalidate, strContains_container_refl]
  · intro hcc hc hoff base hbase
    simp [build, buildFromPodCreate, resolveContainerImage, hpd, hps, hsha, hmk, htmp,
      hcl, hac, hdc, harc, htar, hread, hput, hns, hcc, hc, hoff, hbase, hpod, hwait,
      hstream, hcopy, hend, hget, hinspect, hproc, hcb, cacheInvalidate,
      strContains_container_refl]
  · intro hcc hne hsec
    simp [build, buildFromPodCreate, hpd, hps, hsha, hmk, htmp, hcl, hac, hdc, harc,
      htar, hread, hput, hns, hcc, hne, hsec, hpod, hwait, hstream, hcopy, hend, hget,
      hinspect, hproc, hcb, cacheInvalidate]
  · intro hcc hne img himg
    simp [build, buildFromPodCreate, hpd, hps, hsha, hmk, htmp, hcl, hac, hdc, harc,
      htar, hread, hput, hns, hcc, hne, himg, hpod, hwait, hstream, hcopy, hend, hget,
      hinspect, hproc, hcb, cacheInvalidate]

/-- Witness for C1 amended at the concrete on-cluster container build. -/
theorem c1_amended_witness :
    build cfgC1 worldC1 sha40 =
      (.success worldC1.createBuildRelease,
       [Event.putTar (NewSlugBuilderInfo cfgC1.app "aaaaaaaa" false).tarKey,
        Event.podCreate .docker ("docker-" ++ cfgC1.app ++ "-" ++ "aaaaaaaa"),
        Event.createBuild cfgC1.app "container" true []]) :=
  (c1_amended_create_build_image cfgC1 worldC1 sha40 ⟨sha40, "aaaaaaaa"⟩ .always .always [] []
    (by rfl) (by rfl) (by decide) rfl rfl rfl rfl rfl rfl rfl rfl rfl (by rfl)
    rfl rfl rfl rfl rfl rfl (by decide) (by rfl) rfl).1
    (by decide) (by decide) (by decide)

/-- C2 amended: an error while copying the followed pod log stream to
stdout fails the build immediately with the fetching-builder-logs error;
exit codes are never inspected and no CreateBuild call is made. -/
theorem c2_amended_stream_error_fatal
    (conf : Config) (w : World) (rawGitSha : String) (gitSha : GitSha)
    (pd ps : PullPolicy) (ns : List (String × String)) (e : GoErr)
    (hpd : pullPolicyFromString conf.dockerBuilderImagePullPolicy = .ok pd)
    (hps : pullPolicyFromString conf.slugBuilderImagePullPolicy = .ok ps)
    (hsha : NewSha rawGitSha = some gitSha)
    (hmk : w.mkdirErr = none)
    (htmp : w.tmpDirErr = none)
    (hcl : w.newClientErr = none)
    (hac : CheckAPICompat w.getAppConfigErr = none)
    (hdc : w.appConfig.values.any (fun p => p.1 == "DRYCC_DISABLE_CACHE") = false)
    (harc : w.gitArchiveErr = none)
    (htar : w.tarExtractErr = none)
    (hread : w.readTarErr = none)
    (hput : w.putTarErr = none)
    (hns : buildBuilderPodNodeSelector conf.builderPodNodeSelector = .ok ns)
    (hpod : w.createPodErr = none)
    (hwait : w.waitForPodErr = none)
    (hstream : w.streamErr = none)
    (hcopy : w.copyErr = some e) :
    (strContains w.stack.name "container" = true →
      ∀ img, resolveContainerImage conf w conf.app gitSha.short = .ok img →
        build conf w rawGitSha =
          (.failure (.fetchLogsFailed e),
           [Event.putTar (NewSlugBuilderInfo conf.app gitSha.short false).tarKey,
            Event.podCreate .docker ("docker-" ++ conf.app ++ "-" ++ gitSha.short)]) ∧
        ∀ i s b p, Event.createBuild i s b p ∉ (build conf w rawGitSha).2) ∧
    (strContains w.stack.name "container" = false → w.createSecretErr = none →
      build conf w rawGitSha =
        (.failure (.fetchLogsFailed e),
         [Event.putTar (NewSlugBuilderInfo conf.app gitSha.short false).tarKey,
          Event.secretCreate (conf.app ++ "-build-env"),
          Event.podCreate .slug ("slug-" ++ conf.app ++ "-" ++ gitSha.short),
          Event.secretDelete (conf.app ++ "-build-env")]) ∧
      ∀ i s b p, Event.createBuild i s b p ∉ (build conf w rawGitSha).2) := by
  refine ⟨?_, ?_⟩
  · intro hcc img himg
    have hb : build conf w rawGitSha =
        (.failure (.fetchLogsFailed e),
         [Event.putTar (NewSlugBuilderInfo conf.app gitSha.short false).tarKey,
          Event.podCreate .docker ("docker-" ++ conf.app ++ "-" ++ gitSha.short)]) := by
      simp [build, buildFromPodCreate, hpd, hps, hsha, hmk, htmp, hcl, hac, hdc, harc,
        htar, hread, hput, hns, hcc, himg, hpod, hwait, hstream, hcopy, cacheInvalidate]
    refine ⟨hb, ?_⟩
    intro i s b p hmem
    rw [hb] at hmem
    simp at hmem
  · intro hcc hsec
    have hb : build conf w rawGitSha =
        (.failure (.fetchLogsFailed e),
         [Event.putTar (NewSlugBuilderInfo conf.app gitSha.short false).tarKey,
          Event.secretCreate (conf.app ++ "-build-env"),
          Event.podCreate .slug ("slug-" ++ conf.app ++ "-" ++ gitSha.short),
          Event.secretDelete (conf.app ++ "-build-env")]) := by
      simp [build, buildFromPodCreate, hpd, hps, hsha, hmk, htmp, hcl, hac, hdc, harc,
        htar, hread, hput, hns, hcc, hsec, hpod, hwait, hstream, hcopy, cacheInvalidate]
    refine ⟨hb, ?_⟩
    intro i s b p hmem
    rw [hb] at hmem
    simp at hmem

/-- Witness for C2 amended at the concrete build whose log-stream copy fails. -/
theorem c2_amended_witness :
    build cfgA worldC2 sha40 =
      (.failure (.fetchLogsFailed "stream reset by peer"),
       [Event.putTar (NewSlugBuilderInfo cfgA.app "aaaaaaaa" false).tarKey,
        Event.secretCreate (cfgA.app ++ "-build-env"),
        Event.podCreate .slug ("slug-" ++ cfgA.app ++ "-" ++ "aaaaaaaa"),
        Event.secretDelete (cfgA.app ++ "-build-env")]) :=
  ((c2_amended_stream_error_fatal cfgA worldC2 sha40 ⟨sha40, "aaaaaaaa"⟩ .always .always []
    "stream reset by peer"
    (by rfl) (by rfl) (by decide) rfl rfl rfl rfl rfl rfl rfl rfl rfl (by rfl)
    rfl rfl rfl rfl).2 (by decide) rfl).1

/-- C3 amended: for every build with disableCaching set, Stat is invoked on
the cache key; when Stat succeeds (the key exists) Delete is invoked before
the build pod is created, and a Delete error is fatal to the build; any
error from Stat — NotFound or any other storage error alike — skips the
deletion and is not fatal. -/
theorem c3_amended_cache_invalidation
    (conf : Config) (w : World) (rawGitSha : String) (gitSha : GitSha)
    (pd ps : PullPolicy) (ns : List (String × String)) (pt : ProcessType)
    (hpd : pullPolicyFromString conf.dockerBuilderImagePullPolicy = .ok pd)
    (hps : pullPolicyFromString conf.slugBuilderImagePullPolicy = .ok ps)
    (hsha : NewSha rawGitSha = some gitSha)
    (hmk : w.mkdirErr = none)
    (htmp : w.tmpDirErr = none)
    (hcl : w.newClientErr = none)
    (hac : CheckAPICompat w.getAppConfigErr = none)
    (hdc : w.appConfig.values.any (fun p => p.1 == "DRYCC_DISABLE_CACHE") = true)
    (harc : w.gitArchiveErr = none)
    (htar : w.tarExtractErr = none)
    (hread : w.readTarErr = none)
    (hput : w.putTarErr = none)
    (hns : buildBuilderPodNodeSelector conf.builderPodNodeSelector = .ok ns)
    (hcont : strContains w.stack.name "container" = false)
    (hne : w.stack.name ≠ "container")
    (hsec : w.createSecretErr = none)
    (hpod : w.createPodErr = none)
    (hwait : w.waitForPodErr = none)
    (hstream : w.streamErr = none)
    (hcopy : w.copyErr = none)
    (hend : w.waitForPodEndErr = none)
    (hget : w.getPodErr = none)
    (hinspect : inspectExitCodes w.containerStatuses = .allZero)
    (hproc : getProcFile w.procOracle
      (NewSlugBuilderInfo conf.app gitSha.short true).absoluteProcfileKey w.stack = .ok pt)
    (hcb : CheckAPICompat w.createBuildErr = none) :
    (w.statCacheErr = none → w.deleteCacheErr = none →
      build conf w rawGitSha =
        (.success w.createBuildRelease,
         [Event.statCache (NewSlugBuilderInfo conf.app gitSha.short true).cacheKey,
          Event.deleteCache (NewSlugBuilderInfo conf.app gitSha.short true).cacheKey,
          Event.putTar (NewSlugBuilderInfo conf.app gitSha.short true).tarKey,
          Event.secretCreate (conf.app ++ "-build-env"),
          Event.podCreate .slug ("slug-" ++ conf.app ++ "-" ++ gitSha.short),
          Event.createBuild (NewSlugBuilderInfo conf.app gitSha.short true).absoluteSlugObjectKey
            w.stack.name false pt,
          Event.secretDelete (conf.app ++ "-build-env")])) ∧
    (∀ se, w.statCacheErr = some se →
      build conf w rawGitSha =
        (.success w.createBuildRelease,
         [Event.statCache (NewSlugBuilderInfo conf.app gitSha.short true).cacheKey,
          Event.putTar (NewSlugBuilderInfo conf.app gitSha.short true).tarKey,
          Event.secretCreate (conf.app ++ "-build-env"),
          Event.podCreate .slug ("slug-" ++ conf.app ++ "-" ++ gitSha.short),
          Event.createBuild (NewSlugBuilderInfo conf.app gitSha.short true).absoluteSlugObjectKey
            w.stack.name false pt,
          Event.secretDelete (conf.app ++ "-build-env")])) ∧
    (∀ de, w.statCacheErr = none → w.deleteCacheErr = some de →
      build conf w rawGitSha =
        (.failure (.cacheDeleteFailed de),
         [Event.statCache (NewSlugBuilderInfo conf.app gitSha.short true).cacheKey,
          Event.deleteCache (NewSlugBuilderInfo conf.app gitSha.short true).cacheKey])) := by
  refine ⟨?_, ?_, ?_⟩
  · intro hstat hdel
    simp [build, buildFromPodCreate, cacheInvalidate, hpd, hps, hsha, hmk, htmp, hcl,
      hac, hdc, harc, htar, hread, hput, hns, hcont, hne, hsec, hpod, hwait, hstream,
      hcopy, hend, hget, hinspect, hproc, hcb, hstat, hdel]
  · intro se hstat
    simp [build, buildFromPodCreate, cacheInvalidate, hpd, hps, hsha, hmk, htmp, hcl,
      hac, hdc, harc, htar, hread, hput, hns, hcont, hne, hsec, hpod, hwait, hstream,
      hcopy, hend, hget, hinspect, hproc, hcb, hstat]
  · intro de hstat hdel
    simp [build, cacheInvalidate, hpd, hps, hsha, hmk, htmp, hcl, hac, hdc, hstat, hdel]

/-- World with caching disabled and a cache object present (Stat and Delete
both succeed), everything else as in the baseline. -/
def worldC3w : World :=
  { worldA with appConfig := ⟨[("DRYCC_DISABLE_CACHE", "1")]⟩ }

/-- Witness for C3 amended at the concrete build whose cache entry exists
and is deleted before the pod is created. -/
theorem c3_amended_witness :
    build cfgA worldC3w sha40 =
      (.success worldC3w.createBuildRelease,
       [Event.statCache (NewSlugBuilderInfo cfgA.app "aaaaaaaa" true).cacheKey,
        Event.deleteCache (NewSlugBuilderInfo cfgA.app "aaaaaaaa" true).cacheKey,
        Event.putTar (NewSlugBuilderInfo cfgA.app "aaaaaaaa" true).tarKey,
        Event.secretCreate (cfgA.app ++ "-build-env"),
        Event.podCreate .slug ("slug-" ++ cfgA.app ++ "-" ++ "aaaaaaaa"),
        Event.createBuild (NewSlugBuilderInfo cfgA.app "aaaaaaaa" true).absoluteSlugObjectKey
          worldC3w.stack.name false [("web", "cmd")],
        Event.secretDelete (cfgA.app ++ "-build-env")]) :=
  (c3_amended_cache_invalidation cfgA worldC3w sha40 ⟨sha40, "aaaaaaaa"⟩ .always .always []
    [("web", "cmd")]
    (by rfl) (by rfl) (by decide) rfl rfl rfl rfl (by decide) rfl rfl rfl rfl (by rfl)
    (by decide) (by decide) rfl rfl rfl rfl rfl rfl rfl (by decide) (by rfl) rfl).1
    rfl rfl
